import Mathlib

/-!
Shallow embedding of the `tmpl` package: the template registry
(`Get`/`Add`/`Delete`/`Load`), the concurrent template compiler
(`parseHTMLTemplates`), and the render pipeline (`Exec`).

External collaborators (session reader, CSRF issuer, user resolver, route
matcher, tracing, feature flags, canonical-URL deriver, return-to heuristic,
the template-expression engine) are modelled as inputs: their outputs are
fields of `Request`/`Globals` or explicit function parameters, mirroring the
spec's treatment of them as collaborators outside the engine.  The Go code's
side effects (what reaches the response sink, whether the registry was
consulted, whether template execution ran, which `Common` value was injected
into the page data) are made explicit in the `ExecResult` record.
-/

namespace Tmpl

/-- Modelled from the Go standard library: one dash-separated token of
`textproto.CanonicalMIMEHeaderKey` — first character upper-cased, the rest
lower-cased. -/
def canonicalToken (t : String) : String :=
  match t.toList with
  | [] => ""
  | c :: rest => String.mk (c.toUpper :: rest.map Char.toLower)

/-- Modelled from the Go standard library: `textproto.CanonicalMIMEHeaderKey`,
which `http.Header.Get` and `http.Header.Set` apply to their key argument. -/
def canonicalKey (k : String) : String :=
  String.intercalate "-" ((k.splitOn "-").map canonicalToken)

/-- An HTTP header set, as a list of key/value pairs.  Direct map writes
(`bw.Header()[k] = v`) store the key verbatim; `hget`/`hset` canonicalise. -/
abbrev Header := List (String × String)

/-- Go `http.Header.Get`: canonicalises the key, returns `""` when absent. -/
def hget (h : Header) (k : String) : String :=
  match h.find? (fun p => p.1 == canonicalKey k) with
  | some p => p.2
  | none => ""

/-- Go `http.Header.Set`: stores the value under the canonical key,
replacing any previous values for that key. -/
def hset (h : Header) (k v : String) : Header :=
  (canonicalKey k, v) :: h.filter (fun p => p.1 != canonicalKey k)

/-- Go `isPrefixList sub l` decides whether `sub` is a prefix of `l`
(character lists). -/
def isPrefixList : List Char → List Char → Bool
  | [], _ => true
  | _ :: _, [] => false
  | a :: as, b :: bs => a == b && isPrefixList as bs

/-- Executable model of Go `strings.Contains` on character lists: `sub`
occurs contiguously somewhere in `l`. -/
def goContainsList (sub l : List Char) : Bool :=
  match l with
  | [] => isPrefixList sub []
  | c :: t => isPrefixList sub (c :: t) || goContainsList sub t

/-- Go `strings.Contains s sub`. -/
def goContains (s sub : String) : Bool :=
  goContainsList sub.toList s.toList

/-- The spec's "contains the literal substring": `sub` occurs contiguously
inside `s`. -/
def hasSubstr (s sub : String) : Prop :=
  ∃ l r, s.toList = l ++ sub.toList ++ r

/-- Modelled from the spec: `randstring.NewLen` (`util/randstring` is not
under src/) — a fixed-length random string; the randomness source is made
explicit as a seed. -/
def randstringNewLen (n : Nat) (seed : Nat) : String :=
  String.mk ((List.range n).map (fun i => Char.ofNat (97 + (seed + i) % 26)))

/-- An `html/template` namespace after parsing: the named definitions it
holds (name, body).  Execution semantics of the template-expression language
is an external collaborator, passed to `Exec` as a function. -/
structure Template where
  defs : List (String × String)
deriving DecidableEq

/-- The process-wide `templates` map (`map[string]*htmpl.Template`), guarded
by `templatesMu`; modelled as a function since claims never need to
enumerate it. -/
def Registry := String → Option Template

/-- The registry at process start: empty. -/
def emptyRegistry : Registry := fun _ => none

/-- Go `Get`: gets a template by name, if it exists. -/
def Get (name : String) (reg : Registry) : Option Template :=
  reg name

/-- Go `Add`: adds a parsed template under `name`, replacing any previous one. -/
def Add (name : String) (t : Template) (reg : Registry) : Registry :=
  fun n => if n = name then some t else reg n

/-- Go `Delete`: removes the named template. -/
def Delete (name : String) (reg : Registry) : Registry :=
  fun n => if n = name then none else reg n

/-- The `log.Fatalf` calls inside `parseHTMLTemplates`: a fetch failure of a
fragment, a parse error of the concatenated source, or a missing `ROOT`
definition.  Each aborts the process at startup. -/
inductive Fatal where
  | fetchErr (tname msg : String)
  | parseErr (set : List String) (msg : String)
  | rootMissing (set : List String)
deriving DecidableEq

/-- Accumulation semantics of `t.Parse`: definitions parsed later replace same-named
definitions already in the namespace. -/
def mergeDefs (old new : List (String × String)) : List (String × String) :=
  new.foldl (fun acc d => d :: acc.filter (fun p => p.1 != d.1)) old

/-- Association lookup in a template namespace (`t.Lookup`). -/
def lookupDef (defs : List (String × String)) (n : String) : Option String :=
  ((defs.find? (fun p => p.1 == n))).map (fun p => p.2)

/-- The fetch-and-parse loop body of `parseHTMLTemplates`: for each fragment
name, open `"/" ++ tname` in the asset source and parse its contents into
the accumulated namespace; any failure is fatal. -/
def parseFragments (fetch : String → Except String String)
    (parse : String → Except String (List (String × String)))
    (set : List String) (names : List String)
    (defs : List (String × String)) : Except Fatal (List (String × String)) :=
  match names with
  | [] => .ok defs
  | tname :: rest =>
    match fetch ("/" ++ tname) with
    | .error e => .error (.fetchErr tname e)
    | .ok src =>
      match parse src with
      | .error e => .error (.parseErr set e)
      | .ok ds => parseFragments fetch parse set rest (mergeDefs defs ds)

/-- Compilation of one template set: concatenate `setv ++ layout`, fetch and
parse every fragment, look up the `ROOT` definition (its absence is fatal),
and return the registry key (`set[0]` of the combined slice) with the
compiled unit. -/
def compileSet (fetch : String → Except String String)
    (parse : String → Except String (List (String × String)))
    (layout : List String) (setv : List String) :
    Except Fatal (String × Template) :=
  match parseFragments fetch parse (setv ++ layout) (setv ++ layout) [] with
  | .error f => .error f
  | .ok defs =>
    match lookupDef defs "ROOT" with
    | none => .error (.rootMissing (setv ++ layout))
    | some _ => .ok ((setv ++ layout).headI, ⟨defs⟩)

/-- Go `parseHTMLTemplates`: compile every set (Go runs them concurrently; the
model is one linearisation), registering each successful unit.  A
`log.Fatalf` in any set aborts the process: the second component records the
fatal error, and no further registration happens. -/
def parseHTMLTemplates (fetch : String → Except String String)
    (parse : String → Except String (List (String × String)))
    (sets : List (List String)) (layout : List String) (reg : Registry) :
    Registry × Option Fatal :=
  match sets with
  | [] => (reg, none)
  | setv :: rest =>
    match compileSet fetch parse layout setv with
    | .error f => (reg, some f)
    | .ok kt => parseHTMLTemplates fetch parse rest layout (Add kt.1 kt.2 reg)

/-- The sets declared in `repoTemplates`. -/
def repoSets : List (List String) :=
  [["repo/main.html", "repo/readme.inc.html", "repo/tree.inc.html", "repo/tree/dir.inc.html", "repo/commit.inc.html"],
   ["repo/badges.html", "repo/badges_and_counters.html"],
   ["repo/counters.html", "repo/badges_and_counters.html"],
   ["repo/builds.html", "builds/build.inc.html"],
   ["repo/build.html", "builds/build.inc.html", "repo/commit.inc.html"],
   ["repo/tree/file.html"],
   ["repo/tree/doc.html", "repo/commit.inc.html"],
   ["repo/tree/dir.html", "repo/tree/dir.inc.html", "repo/commit.inc.html"],
   ["repo/search.html"],
   ["repo/frame.html", "error/common.html"],
   ["repo/commit.html", "repo/commit.inc.html"],
   ["repo/commits.html", "repo/commit.inc.html"],
   ["repo/branches.html"],
   ["repo/tags.html"],
   ["repo/compare.html", "repo/commit.inc.html"],
   ["repo/no_vcs_data.html"],
   ["def/examples.html", "def/examples.inc.html", "def/snippet.inc.html", "def/def.html"]]

/-- The layout fragments shared by `repoTemplates`. -/
def repoLayout : List String :=
  ["repo/repo.html", "repo/subnav.html", "common.html", "layout.html", "nav.html", "footer.html"]

/-- The sets declared in `commonTemplates`. -/
def commonSets : List (List String) :=
  [["user/login.html"],
   ["user/signup.html"],
   ["user/logged_out.html"],
   ["user/forgot_password.html"],
   ["user/password_reset.html"],
   ["user/new_password.html"],
   ["user/settings/profile.html", "user/settings/common.inc.html"],
   ["user/settings/notifications.html", "user/settings/common.inc.html"],
   ["user/settings/keys.html", "user/settings/common.inc.html"],
   ["home/dashboard.html"],
   ["builds/builds.html", "builds/build.inc.html"],
   ["coverage/coverage.html"],
   ["error/error.html", "error/common.html"],
   ["oauth-provider/authorize.html"],
   ["app_global.html"]]

/-- The layout fragments shared by `commonTemplates`. -/
def commonLayout : List String :=
  ["common.html", "layout.html", "nav.html", "footer.html"]

/-- The sets declared in `standaloneTemplates`. -/
def standaloneSets : List (List String) := [["def/popover.html"]]

/-- The layout fragments shared by `standaloneTemplates`. -/
def standaloneLayout : List String := ["common.html"]

/-- Go `repoTemplates`. -/
def repoTemplates (fetch : String → Except String String)
    (parse : String → Except String (List (String × String)))
    (reg : Registry) : Registry × Option Fatal :=
  parseHTMLTemplates fetch parse repoSets repoLayout reg

/-- Go `commonTemplates`. -/
def commonTemplates (fetch : String → Except String String)
    (parse : String → Except String (List (String × String)))
    (reg : Registry) : Registry × Option Fatal :=
  parseHTMLTemplates fetch parse commonSets commonLayout reg

/-- Go `standaloneTemplates`. -/
def standaloneTemplates (fetch : String → Except String String)
    (parse : String → Except String (List (String × String)))
    (reg : Registry) : Registry × Option Fatal :=
  parseHTMLTemplates fetch parse standaloneSets standaloneLayout reg

/-- Go `Load`: loads all template files, group by group; the first fatal error
aborts the process. -/
def Load (fetch : String → Except String String)
    (parse : String → Except String (List (String × String)))
    (reg : Registry) : Registry × Option Fatal :=
  match repoTemplates fetch parse reg with
  | (r1, some f) => (r1, some f)
  | (r1, none) =>
    match commonTemplates fetch parse r1 with
    | (r2, some f) => (r2, some f)
    | (r2, none) => standaloneTemplates fetch parse r2

/-- A resolved user (`sourcegraph.User`); only identity matters here. -/
structure User where
  uid : Nat
deriving DecidableEq

/-- A session cookie value (`appauth.Session`); opaque here. -/
structure AppSession where
  token : String
deriving DecidableEq

/-- Modelled from the spec: the outcome of `appauth.ReadSessionCookie`
(`app/auth` is not under src/) — it fails distinctly for "no session
present" versus any other read error. -/
inductive SessionRead where
  | ok (s : AppSession)
  | noSession
  | failed (msg : String)
deriving DecidableEq

/-- Whether the session read failed with an error other than `ErrNoSession`. -/
def sessionReadFailed : SessionRead → Bool
  | .failed _ => true
  | _ => false

/-- The session value `Exec` proceeds with: the cookie's session when the
read succeeded, `nil` when the session is absent. -/
def sessionOf : SessionRead → Option AppSession
  | .ok s => some s
  | _ => none

/-- An inbound request together with the outputs of the per-request external
collaborators `Exec` consults (`handlerutil`, `httpctx`, `nosurf`, `mux`,
`traceutil`, `returnto`): each collaborator output is an input field. -/
structure Request where
  ctx : Nat
  host : String
  url : String
  query : List (String × String)
  cacheControl : String
  sessionRead : SessionRead
  currentUser : Option User
  fullUser : Option User
  emails : List String
  csrfToken : String
  routeName : String
  routeVars : List (String × String)
  spanID : Nat
  debugMode : Bool
  returnTo : String
deriving DecidableEq

/-- Process-level collaborators of `Exec`: the configured application URL,
the `appconf`/`feature` snapshots, the URL-resolution collaborators
(`url.URL.ResolveReference` from the standard library and
`canonicalurl.FromURL`, repository code not under src/), and the randomness
source for `randstring.NewLen`. -/
structure Globals where
  appURL : String
  disableExternalLinks : Bool
  features : List (String × Bool)
  resolveRef : String → String → String
  canonicalFromURL : String → String
  randSeed : Nat

/-- The `Common` struct injected at the top level of every executed
template.  `HostName` and `HideSearch` are never set by `Exec` and keep
their Go zero values there. -/
structure Common where
  RequestHost : String
  Session : Option AppSession
  CSRFToken : String
  CurrentUser : Option User
  UserEmails : List String
  CurrentRoute : String
  CurrentURI : String
  CurrentURL : String
  CurrentQuery : List (String × String)
  CurrentSpanID : Nat
  TemplateName : String
  AppURL : String
  CanonicalURL : Option String
  HostName : String
  Ctx : Nat
  CurrentRouteVars : List (String × String)
  Debug : Bool
  ReturnTo : String
  DisableExternalLinks : Bool
  Features : List (String × Bool)
  ErrorID : String
  CacheControl : String
  HideMOTD : Bool
  HideSearch : Bool
deriving DecidableEq

/-- The Go zero value of `Common`, the usual caller-supplied starting point. -/
def zeroCommon : Common :=
  { RequestHost := "", Session := none, CSRFToken := "", CurrentUser := none,
    UserEmails := [], CurrentRoute := "", CurrentURI := "", CurrentURL := "",
    CurrentQuery := [], CurrentSpanID := 0, TemplateName := "", AppURL := "",
    CanonicalURL := none, HostName := "", Ctx := 0, CurrentRouteVars := [],
    Debug := false, ReturnTo := "", DisableExternalLinks := false,
    Features := [], ErrorID := "", CacheControl := "", HideMOTD := false,
    HideSearch := false }

/-- Well-shaped page data: a pointer to a struct exposing a `Common` field
of type `Common`, and optionally an `Err` field.  `err = none` models the
absence of the `Err` field; `err = some none` models a present `Err` field
holding a nil error interface; `err = some (some m)` a present error with
message `m`. -/
structure PageData where
  common : Common
  err : Option (Option String)
deriving DecidableEq

/-- The page-data argument of `Exec` when non-nil: either a value on which
the reflective `Common` field lookup and type assertion fail, or well-shaped
page data. -/
inductive PageDataArg where
  | badShape
  | good (pd : PageData)
deriving DecidableEq

/-- Errors `Exec` can return: a propagated session read failure, a registry
lookup miss (`"Template %s not found"`), or a template execution failure. -/
inductive ExecErr where
  | sessionFail (msg : String)
  | lookupMiss (name : String)
  | execFail (msg : String)
deriving DecidableEq

/-- How a call to `Exec` ends: normal return of `nil`, normal return of an
error, or a runtime panic. -/
inductive Outcome where
  | ok
  | fail (e : ExecErr)
  | panicked (msg : String)
deriving DecidableEq

/-- Whether an outcome is a panic. -/
def isPanicked : Outcome → Bool
  | .panicked _ => true
  | _ => false

/-- A complete response as flushed to the response sink. -/
structure HTTPResponse where
  status : Nat
  headers : Header
  body : String
deriving DecidableEq

/-- The observable effects of one `Exec` call: its outcome, the `Common`
value injected into the page data (if the injection point was reached),
whether the registry was consulted, whether template execution was invoked,
and what reached the response sink (`none` means zero bytes). -/
structure ExecResult where
  outcome : Outcome
  injected : Option Common
  lookedUp : Bool
  executed : Bool
  flushed : Option HTTPResponse
deriving DecidableEq

/-- Modelled from the spec: the header set of `httputil.ResponseBuffer`
(`util/httputil` is not under src/) after `Exec` copies the supplied headers
and defaults the content type — response content is assembled in memory and
reaches the sink only by the final flush. -/
def bufferedHeaders (header : Header) : Header :=
  if hget header "content-type" = "" then
    hset header "Content-Type" "text/html; charset=utf-8"
  else header

/-- The buffered phase of `Exec`: copy headers, default the content type,
write the status into the buffer; stop on `http.StatusNotModified` (304)
without flushing; otherwise look the template up (`executeTemplateBase`),
execute it into the buffer, and only on success flush the complete buffer to
the sink in one `bw.WriteTo(resp)`. -/
def renderPhase (execute : Template → Option PageDataArg → Except String String)
    (registry : Registry) (name : String) (status : Nat) (header : Header)
    (dataArg : Option PageDataArg) (injected : Option Common) : ExecResult :=
  if status = 304 then
    { outcome := .ok, injected := injected, lookedUp := false,
      executed := false, flushed := none }
  else
    match Get name registry with
    | none =>
      { outcome := .fail (.lookupMiss name), injected := injected,
        lookedUp := true, executed := false, flushed := none }
    | some t =>
      match execute t dataArg with
      | .error m =>
        { outcome := .fail (.execFail m), injected := injected,
          lookedUp := true, executed := true, flushed := none }
      | .ok body =>
        { outcome := .ok, injected := injected, lookedUp := true,
          executed := true,
          flushed := some { status := status, headers := bufferedHeaders header,
                            body := body } }

/-- Go `Exec`: executes the template named `name` with the given data: read the
session cookie (a non-`ErrNoSession` failure propagates), reflectively read
the caller's `Common` field (panicking on ill-shaped data), derive the
canonical URL, the error correlation ID (panicking on a present-but-nil
`Err` field), and the cache-control directive, overwrite the `Common` field,
then buffer and render. -/
def Exec (glob : Globals)
    (execute : Template → Option PageDataArg → Except String String)
    (registry : Registry) (req : Request) (name : String) (status : Nat)
    (header : Header) (data : Option PageDataArg) : ExecResult :=
  match data with
  | none => renderPhase execute registry name status header none none
  | some arg =>
    match req.sessionRead with
    | .failed m =>
      { outcome := .fail (.sessionFail m), injected := none,
        lookedUp := false, executed := false, flushed := none }
    | _ =>
      match arg with
      | .badShape =>
        { outcome := .panicked "reflect: Common field missing or not of type Common",
          injected := none, lookedUp := false, executed := false,
          flushed := none }
      | .good pd =>
        match pd.err with
        | some none =>
          { outcome := .panicked "interface conversion: interface is nil, not error",
            injected := none, lookedUp := false, executed := false,
            flushed := none }
        | _ =>
          let sess := sessionOf req.sessionRead
          let currentURL := glob.resolveRef glob.appURL req.url
          let canonicalURL :=
            match pd.common.CanonicalURL with
            | some c => some c
            | none => some (glob.canonicalFromURL currentURL)
          let errorID :=
            match pd.err with
            | some (some _) => randstringNewLen 6 glob.randSeed
            | _ => ""
          let cacheControl :=
            if goContains req.cacheControl "no-cache" ||
                goContains req.cacheControl "max-age=0" then "no-cache"
            else ""
          let newCommon : Common :=
            { RequestHost := req.host, Session := sess,
              CSRFToken := req.csrfToken, CurrentUser := req.fullUser,
              UserEmails := req.emails, CurrentRoute := req.routeName,
              CurrentURI := req.url, CurrentURL := currentURL,
              CurrentQuery := req.query, CurrentSpanID := req.spanID,
              TemplateName := name, AppURL := glob.appURL,
              CanonicalURL := canonicalURL, HostName := "", Ctx := req.ctx,
              CurrentRouteVars := req.routeVars, Debug := req.debugMode,
              ReturnTo := req.returnTo,
              DisableExternalLinks := glob.disableExternalLinks,
              Features := glob.features, ErrorID := errorID,
              CacheControl := cacheControl,
              HideMOTD := pd.common.HideMOTD, HideSearch := false }
          renderPhase execute registry name status header
            (some (.good { pd with common := newCommon })) (some newCommon)

/-- Whether the context-injection phase of `Exec` completes: data absent, or
well-shaped with a session read that does not fail and no present-but-nil
`Err` field. -/
def injectionOK (req : Request) (data : Option PageDataArg) : Bool :=
  match data with
  | none => true
  | some .badShape => false
  | some (.good pd) =>
    !(sessionReadFailed req.sessionRead) && !(pd.err == some none)

/-- Spec-side description of the injected context (the amended merge
contract): every field computed fresh from the request and its
collaborators, except that `HideMOTD` is copied from the caller's `Common`
and `CanonicalURL` keeps a caller-supplied non-nil value. -/
def specInjectedCommon (glob : Globals) (req : Request) (name : String)
    (pd : PageData) : Common :=
  { RequestHost := req.host,
    Session := sessionOf req.sessionRead,
    CSRFToken := req.csrfToken,
    CurrentUser := req.fullUser,
    UserEmails := req.emails,
    CurrentRoute := req.routeName,
    CurrentURI := req.url,
    CurrentURL := glob.resolveRef glob.appURL req.url,
    CurrentQuery := req.query,
    CurrentSpanID := req.spanID,
    TemplateName := name,
    AppURL := glob.appURL,
    CanonicalURL :=
      match pd.common.CanonicalURL with
      | some c => some c
      | none => some (glob.canonicalFromURL (glob.resolveRef glob.appURL req.url)),
    HostName := "",
    Ctx := req.ctx,
    CurrentRouteVars := req.routeVars,
    Debug := req.debugMode,
    ReturnTo := req.returnTo,
    DisableExternalLinks := glob.disableExternalLinks,
    Features := glob.features,
    ErrorID := if pd.err.isSome then randstringNewLen 6 glob.randSeed else "",
    CacheControl :=
      if goContains req.cacheControl "no-cache" ||
          goContains req.cacheControl "max-age=0" then "no-cache"
      else "",
    HideMOTD := pd.common.HideMOTD,
    HideSearch := false }

/-- Concrete process collaborators used by the concrete evaluations below. -/
def wGlob : Globals :=
  { appURL := "http://app", disableExternalLinks := false, features := [],
    resolveRef := fun a b => a ++ b, canonicalFromURL := fun u => u,
    randSeed := 0 }

/-- A template-engine collaborator whose execution always succeeds. -/
def wExecute : Template → Option PageDataArg → Except String String :=
  fun _ _ => .ok "BODY"

/-- A template-engine collaborator whose execution always fails. -/
def wFailExecute : Template → Option PageDataArg → Except String String :=
  fun _ _ => .error "helper function failed"

/-- A concrete compiled unit. -/
def wTemplate : Template := ⟨[("ROOT", "B")]⟩

/-- A registry holding one unit under the key `"t"`. -/
def wRegistry : Registry := Add "t" wTemplate emptyRegistry

/-- A concrete anonymous request. -/
def wRequest : Request :=
  { ctx := 0, host := "example.com", url := "/page", query := [],
    cacheControl := "", sessionRead := .noSession, currentUser := none,
    fullUser := none, emails := [], csrfToken := "tok", routeName := "r",
    routeVars := [], spanID := 0, debugMode := false, returnTo := "/page" }

/-- The same request with a failing session store. -/
def wRequestFail : Request :=
  { wRequest with sessionRead := .failed "session store down" }

/-- The same request with the header `Cache-Control: max-age=0, private`. -/
def wRequestCC : Request :=
  { wRequest with cacheControl := "max-age=0, private" }

/-- Page data with a zero `Common` and no `Err` field. -/
def wPageData : PageData := { common := zeroCommon, err := none }

/-- Page data exposing an `Err` field holding a real error. -/
def wPageDataErr : PageData := { common := zeroCommon, err := some (some "boom") }

/-- Page data exposing an `Err` field holding a nil error interface. -/
def wPageDataNilErr : PageData := { common := zeroCommon, err := some none }

/-- Page data whose caller pre-populated `Common` with a canonical URL and
`HideMOTD = true`. -/
def wPageDataCanon : PageData :=
  { common :=
      { zeroCommon with
        CanonicalURL := some "http://caller/x"
        HideMOTD := true },
    err := none }

/-- An asset source that always yields a source text. -/
def wFetch : String → Except String String := fun _ => .ok "src"

/-- An asset source that always fails. -/
def wFetchFail : String → Except String String := fun _ => .error "missing asset"

/-- A parser collaborator that always yields a `ROOT` definition. -/
def wParse : String → Except String (List (String × String)) :=
  fun _ => .ok [("ROOT", "B")]

theorem get_add_self (k : String) (t : Template) (reg : Registry) :
    Get k (Add k t reg) = some t := by
  simp [Get, Add]

theorem get_add_ne (k k' : String) (t : Template) (reg : Registry)
    (h : k ≠ k') : Get k (Add k' t reg) = Get k reg := by
  simp [Get, Add, h]

theorem renderPhase_injected (execute : Template → Option PageDataArg → Except String String)
    (registry : Registry) (name : String) (status : Nat) (header : Header)
    (dataArg : Option PageDataArg) (injected : Option Common) :
    (renderPhase execute registry name status header dataArg injected).injected
      = injected := by
  by_cases h : status = 304
  · simp [renderPhase, h]
  · cases hg : Get name registry with
    | none => simp [renderPhase, h, hg]
    | some t =>
      cases hex : execute t dataArg with
      | error m => simp [renderPhase, h, hg, hex]
      | ok b => simp [renderPhase, h, hg, hex]

theorem renderPhase_flush (execute : Template → Option PageDataArg → Except String String)
    (registry : Registry) (name : String) (status : Nat) (header : Header)
    (dataArg : Option PageDataArg) (injected : Option Common)
    (hst : status ≠ 304) :
    ((renderPhase execute registry name status header dataArg injected).outcome = Outcome.ok →
      ∃ b, (renderPhase execute registry name status header dataArg injected).flushed =
        some { status := status, headers := bufferedHeaders header, body := b }) ∧
    ((renderPhase execute registry name status header dataArg injected).outcome ≠ Outcome.ok →
      (renderPhase execute registry name status header dataArg injected).flushed = none) := by
  cases hg : Get name registry with
  | none => simp [renderPhase, hst, hg]
  | some t =>
    cases hex : execute t dataArg with
    | error m => simp [renderPhase, hst, hg, hex]
    | ok b => simp [renderPhase, hst, hg, hex]

theorem randstringNewLen_length (n seed : Nat) :
    (randstringNewLen n seed).length = n := by
  simp [randstringNewLen, String.length]

theorem isPrefixList_iff (sub l : List Char) :
    isPrefixList sub l = true ↔ ∃ r, l = sub ++ r := by
  induction sub generalizing l with
  | nil => simp [isPrefixList]
  | cons a as ih =>
    cases l with
    | nil => simp [isPrefixList]
    | cons b bs =>
      rw [isPrefixList, Bool.and_eq_true, beq_iff_eq, ih]
      constructor
      · rintro ⟨hab, r, hr⟩
        exact ⟨r, by rw [hab, hr, List.cons_append]⟩
      · rintro ⟨r, hr⟩
        rw [List.cons_append] at hr
        injection hr with h1 h2
        exact ⟨h1.symm, r, h2⟩

theorem goContainsList_iff (sub l : List Char) :
    goContainsList sub l = true ↔ ∃ pre post, l = pre ++ sub ++ post := by
  induction l with
  | nil =>
    rw [goContainsList, isPrefixList_iff]
    constructor
    · rintro ⟨r, hr⟩
      exact ⟨[], r, by simpa using hr⟩
    · rintro ⟨pre, post, h⟩
      have h' : pre ++ sub ++ post = [] := h.symm
      rw [List.append_eq_nil, List.append_eq_nil] at h'
      exact ⟨post, by simp [h'.1.2, h'.2]⟩
  | cons c t ih =>
    rw [goContainsList, Bool.or_eq_true, isPrefixList_iff, ih]
    constructor
    · rintro (⟨r, hr⟩ | ⟨pre, post, h⟩)
      · exact ⟨[], r, by simpa using hr⟩
      · exact ⟨c :: pre, post, by simp [h]⟩
    · rintro ⟨pre, post, h⟩
      cases pre with
      | nil => exact Or.inl ⟨post, by simpa using h⟩
      | cons p ps =>
        right
        rw [List.cons_append, List.cons_append] at h
        injection h with h1 h2
        exact ⟨ps, post, h2⟩

theorem goContains_iff (s sub : String) :
    goContains s sub = true ↔ hasSubstr s sub :=
  goContainsList_iff sub.toList s.toList

theorem exec_injected_eq (glob : Globals)
    (execute : Template → Option PageDataArg → Except String String)
    (registry : Registry) (req : Request) (name : String) (status : Nat)
    (header : Header) (pd : PageData)
    (hs : sessionReadFailed req.sessionRead = false)
    (he : pd.err ≠ some none) :
    (Exec glob execute registry req name status header (some (.good pd))).injected
      = some (specInjectedCommon glob req name pd) := by
  rcases hsr : req.sessionRead with s | _ | m
  · rcases herr : pd.err with _ | oe
    · simp [Exec, hsr, herr, renderPhase_injected, specInjectedCommon]
    · rcases oe with _ | msg
      · exact absurd herr he
      · simp [Exec, hsr, herr, renderPhase_injected, specInjectedCommon]
  · rcases herr : pd.err with _ | oe
    · simp [Exec, hsr, herr, renderPhase_injected, specInjectedCommon]
    · rcases oe with _ | msg
      · exact absurd herr he
      · simp [Exec, hsr, herr, renderPhase_injected, specInjectedCommon]
  · rw [hsr] at hs
    simp [sessionReadFailed] at hs

theorem exec_injected_inv (glob : Globals)
    (execute : Template → Option PageDataArg → Except String String)
    (registry : Registry) (req : Request) (name : String) (status : Nat)
    (header : Header) (pd : PageData) (c : Common)
    (hc : (Exec glob execute registry req name status header (some (.good pd))).injected
            = some c) :
    c = specInjectedCommon glob req name pd := by
  rcases hsr : req.sessionRead with s | _ | m
  · rcases herr : pd.err with _ | oe
    · have h := exec_injected_eq glob execute registry req name status header pd
        (by rw [hsr]; rfl) (by rw [herr]; exact fun h0 => by cases h0)
      rw [h] at hc
      exact (Option.some_inj.mp hc).symm
    · rcases oe with _ | msg
      · simp [Exec, hsr, herr] at hc
      · have h := exec_injected_eq glob execute registry req name status header pd
          (by rw [hsr]; rfl) (by rw [herr]; exact fun h0 => by cases h0)
        rw [h] at hc
        exact (Option.some_inj.mp hc).symm
  · rcases herr : pd.err with _ | oe
    · have h := exec_injected_eq glob execute registry req name status header pd
        (by rw [hsr]; rfl) (by rw [herr]; exact fun h0 => by cases h0)
      rw [h] at hc
      exact (Option.some_inj.mp hc).symm
    · rcases oe with _ | msg
      · simp [Exec, hsr, herr] at hc
      · have h := exec_injected_eq glob execute registry req name status header pd
          (by rw [hsr]; rfl) (by rw [herr]; exact fun h0 => by cases h0)
        rw [h] at hc
        exact (Option.some_inj.mp hc).symm
  · simp [Exec, hsr] at hc

theorem compile_ok_key (fetch : String → Except String String)
    (parse : String → Except String (List (String × String)))
    (layout setv : List String) (kt : String × Template)
    (h : compileSet fetch parse layout setv = .ok kt) (hne : setv ≠ []) :
    kt.1 = setv.headI := by
  cases setv with
  | nil => exact absurd rfl hne
  | cons a tl =>
    unfold compileSet at h
    cases hp : parseFragments fetch parse ((a :: tl) ++ layout) ((a :: tl) ++ layout) [] with
    | error f => rw [hp] at h; cases h
    | ok defs =>
      rw [hp] at h
      dsimp only at h
      cases hl : lookupDef defs "ROOT" with
      | none => rw [hl] at h; cases h
      | some d =>
        rw [hl] at h
        injection h with h2
        rw [← h2]
        rfl

theorem parse_get_mono (fetch : String → Except String String)
    (parse : String → Except String (List (String × String)))
    (sets : List (List String)) (layout : List String)
    (reg : Registry) (k : String) (h : Get k reg ≠ none) :
    Get k (parseHTMLTemplates fetch parse sets layout reg).1 ≠ none := by
  revert h
  induction sets generalizing reg with
  | nil =>
    intro h
    simpa [parseHTMLTemplates] using h
  | cons setv rest ih =>
    intro h
    cases hc : compileSet fetch parse layout setv with
    | error f => simpa [parseHTMLTemplates, hc] using h
    | ok kt =>
      simp only [parseHTMLTemplates, hc]
      apply ih
      by_cases hk : k = kt.1
      · rw [hk, get_add_self]
        simp
      · rw [get_add_ne _ _ _ _ hk]
        exact h

theorem parse_registers (fetch : String → Except String String)
    (parse : String → Except String (List (String × String)))
    (sets : List (List String)) (layout : List String)
    (reg : Registry) (setv : List String)
    (hne : setv ≠ []) (hmem : setv ∈ sets)
    (hok : (parseHTMLTemplates fetch parse sets layout reg).2 = none) :
    Get setv.headI (parseHTMLTemplates fetch parse sets layout reg).1 ≠ none := by
  revert hmem hok
  induction sets generalizing reg with
  | nil =>
    intro hmem _
    cases hmem
  | cons s rest ih =>
    intro hmem hok
    cases hc : compileSet fetch parse layout s with
    | error f => simp [parseHTMLTemplates, hc] at hok
    | ok kt =>
      simp only [parseHTMLTemplates, hc] at hok ⊢
      rcases List.mem_cons.mp hmem with rfl | hmem'
      · have hkey : kt.1 = setv.headI :=
          compile_ok_key fetch parse layout setv kt hc hne
        apply parse_get_mono
        rw [← hkey, get_add_self]
        simp
      · exact ih _ hmem' hok

/-- C1: for every call to `Exec` with a status other than Not Modified,
either the call succeeds and the complete buffered status line, headers and
body are flushed to the response sink in one operation, or the call does not
succeed and zero bytes reach the response sink — no status line, no headers,
no body. -/
theorem exec_flush_atomic (glob : Globals)
    (execute : Template → Option PageDataArg → Except String String)
    (registry : Registry) (req : Request) (name : String) (status : Nat)
    (header : Header) (data : Option PageDataArg) (hst : status ≠ 304) :
    (((Exec glob execute registry req name status header data).outcome = Outcome.ok →
       ∃ b, (Exec glob execute registry req name status header data).flushed =
         some { status := status, headers := bufferedHeaders header, body := b }) ∧
     ((Exec glob execute registry req name status header data).outcome ≠ Outcome.ok →
       (Exec glob execute registry req name status header data).flushed = none)) := by
  rcases data with _ | arg
  · exact renderPhase_flush execute registry name status header none none hst
  · rcases hsr : req.sessionRead with s | _ | m
    · rcases arg with _ | pd
      · simp [Exec, hsr]
      · rcases herr : pd.err with _ | oe
        · simp only [Exec, hsr, herr]
          exact renderPhase_flush execute registry name status header _ _ hst
        · rcases oe with _ | msg
          · simp [Exec, hsr, herr]
          · simp only [Exec, hsr, herr]
            exact renderPhase_flush execute registry name status header _ _ hst
    · rcases arg with _ | pd
      · simp [Exec, hsr]
      · rcases herr : pd.err with _ | oe
        · simp only [Exec, hsr, herr]
          exact renderPhase_flush execute registry name status header _ _ hst
        · rcases oe with _ | msg
          · simp [Exec, hsr, herr]
          · simp only [Exec, hsr, herr]
            exact renderPhase_flush execute registry name status header _ _ hst
    · simp [Exec, hsr]

/-- C1 witness: a concrete lookup-miss call returns an error and flushes
nothing. -/
theorem exec_flush_atomic_case :
    (Exec wGlob wExecute emptyRegistry wRequest "missing" 200 [] none).flushed = none :=
  (exec_flush_atomic wGlob wExecute emptyRegistry wRequest "missing" 200 [] none
    (by decide)).2 (by decide)

/-- C2 counterexample: a clean Not Modified call (nil page data) returns
success without executing or consulting the registry, yet nothing at all is
delivered to the response sink — contradicting the claim that the buffered
status line and headers with an empty body are the final result delivered. -/
theorem exec_notModified_discards_buffer_cex :
    (Exec wGlob wExecute wRegistry wRequest "t" 304 [] none).outcome = Outcome.ok ∧
    (Exec wGlob wExecute wRegistry wRequest "t" 304 [] none).executed = false ∧
    (Exec wGlob wExecute wRegistry wRequest "t" 304 [] none).lookedUp = false ∧
    (Exec wGlob wExecute wRegistry wRequest "t" 304 [] none).flushed = none ∧
    (Exec wGlob wExecute wRegistry wRequest "t" 304 [] none).flushed ≠
      some { status := 304, headers := bufferedHeaders [], body := "" } := by
  decide

/-- C2 (amended): for every call to `Exec` with status 304 whose
context-injection phase completes, the call returns success, template
execution is never invoked, the registry is never consulted, and nothing is
delivered to the response sink — the buffered status line and headers are
discarded rather than flushed. -/
theorem exec_notModified_no_flush (glob : Globals)
    (execute : Template → Option PageDataArg → Except String String)
    (registry : Registry) (req : Request) (name : String) (header : Header)
    (data : Option PageDataArg) (hinj : injectionOK req data = true) :
    (Exec glob execute registry req name 304 header data).outcome = Outcome.ok ∧
    (Exec glob execute registry req name 304 header data).executed = false ∧
    (Exec glob execute registry req name 304 header data).lookedUp = false ∧
    (Exec glob execute registry req name 304 header data).flushed = none := by
  rcases data with _ | arg
  · simp [Exec, renderPhase]
  · rcases arg with _ | pd
    · simp [injectionOK] at hinj
    · rcases hsr : req.sessionRead with s | _ | m
      · rcases herr : pd.err with _ | oe
        · simp [Exec, hsr, herr, renderPhase]
        · rcases oe with _ | msg
          · rw [injectionOK, herr] at hinj
            simp at hinj
          · simp [Exec, hsr, herr, renderPhase]
      · rcases herr : pd.err with _ | oe
        · simp [Exec, hsr, herr, renderPhase]
        · rcases oe with _ | msg
          · rw [injectionOK, herr] at hinj
            simp at hinj
          · simp [Exec, hsr, herr, renderPhase]
      · rw [injectionOK, hsr] at hinj
        simp [sessionReadFailed] at hinj

/-- C2 witness: the amended statement at a concrete call with well-formed
page data. -/
theorem exec_notModified_no_flush_case :
    (Exec wGlob wExecute wRegistry wRequest "t" 304 [] (some (.good wPageData))).outcome = Outcome.ok ∧
    (Exec wGlob wExecute wRegistry wRequest "t" 304 [] (some (.good wPageData))).executed = false ∧
    (Exec wGlob wExecute wRegistry wRequest "t" 304 [] (some (.good wPageData))).lookedUp = false ∧
    (Exec wGlob wExecute wRegistry wRequest "t" 304 [] (some (.good wPageData))).flushed = none :=
  exec_notModified_no_flush wGlob wExecute wRegistry wRequest "t" []
    (some (.good wPageData)) (by decide)

/-- C3 counterexample: page data whose caller pre-populated `Common` carries
a non-nil canonical URL; after `Exec` the injected Common Context keeps the
caller-supplied canonical URL instead of the request-derived value — so
`HideMOTD` is not the only caller-supplied field that survives. -/
theorem exec_canonicalURL_preserved_cex :
    ((Exec wGlob wExecute wRegistry wRequest "t" 200 []
        (some (.good wPageDataCanon))).injected.map Common.CanonicalURL)
      = some (some "http://caller/x") ∧
    wGlob.canonicalFromURL (wGlob.resolveRef wGlob.appURL wRequest.url)
      = "http://app/page" ∧
    "http://caller/x" ≠ "http://app/page" := by
  decide

/-- C3 (amended): for every call to `Exec` with well-formed page data whose
injection phase completes, the injected Common Context preserves the
caller-supplied `HideMOTD` flag and also a caller-supplied non-nil
`CanonicalURL`; every other field is computed fresh from the request and its
collaborators, discarding the caller-supplied value in that position. -/
theorem exec_injects_fresh_common (glob : Globals)
    (execute : Template → Option PageDataArg → Except String String)
    (registry : Registry) (req : Request) (name : String) (status : Nat)
    (header : Header) (pd : PageData)
    (hs : sessionReadFailed req.sessionRead = false)
    (he : pd.err ≠ some none) :
    (Exec glob execute registry req name status header (some (.good pd))).injected
      = some (specInjectedCommon glob req name pd) :=
  exec_injected_eq glob execute registry req name status header pd hs he

/-- C3 witness: the amended statement at a concrete call whose page data
pre-populates `CanonicalURL` and `HideMOTD`. -/
theorem exec_injects_fresh_common_case :
    (Exec wGlob wExecute wRegistry wRequest "t" 200 []
        (some (.good wPageDataCanon))).injected
      = some (specInjectedCommon wGlob wRequest "t" wPageDataCanon) :=
  exec_injects_fresh_common wGlob wExecute wRegistry wRequest "t" 200 []
    wPageDataCanon (by decide) (by decide)

/-- C4: whenever `Exec` injects a Common Context, its `ErrorID` is non-empty
iff the page data exposes a non-absent `Err` sub-value, in which case it is
the fixed-length (six-character) random string; otherwise it is empty. -/
theorem exec_errorID_iff (glob : Globals)
    (execute : Template → Option PageDataArg → Except String String)
    (registry : Registry) (req : Request) (name : String) (status : Nat)
    (header : Header) (pd : PageData) (c : Common)
    (hc : (Exec glob execute registry req name status header (some (.good pd))).injected
            = some c) :
    ((c.ErrorID ≠ "" ↔ pd.err.isSome = true) ∧
     (pd.err.isSome = true →
       c.ErrorID = randstringNewLen 6 glob.randSeed ∧ c.ErrorID.length = 6) ∧
     (pd.err = none → c.ErrorID = "")) := by
  have hcs := exec_injected_inv glob execute registry req name status header pd c hc
  subst hcs
  have hRand : randstringNewLen 6 glob.randSeed ≠ "" := by
    intro h0
    have hl := randstringNewLen_length 6 glob.randSeed
    rw [h0] at hl
    exact absurd hl (by decide)
  cases herr : pd.err with
  | none => simp [specInjectedCommon, herr]
  | some oe => simp [specInjectedCommon, herr, hRand, randstringNewLen_length]

/-- C4 witness: page data with a real error yields the six-character
correlation ID. -/
theorem exec_errorID_iff_case :
    (((specInjectedCommon wGlob wRequest "t" wPageDataErr).ErrorID ≠ "" ↔
        wPageDataErr.err.isSome = true) ∧
     (wPageDataErr.err.isSome = true →
       (specInjectedCommon wGlob wRequest "t" wPageDataErr).ErrorID =
           randstringNewLen 6 wGlob.randSeed ∧
         (specInjectedCommon wGlob wRequest "t" wPageDataErr).ErrorID.length = 6) ∧
     (wPageDataErr.err = none →
       (specInjectedCommon wGlob wRequest "t" wPageDataErr).ErrorID = "")) :=
  exec_errorID_iff wGlob wExecute wRegistry wRequest "t" 200 [] wPageDataErr
    (specInjectedCommon wGlob wRequest "t" wPageDataErr) (by decide)

/-- C5: whenever `Exec` injects a Common Context, its `CacheControl` equals
the literal string `"no-cache"` if the inbound request's cache-control
header contains the substring `"no-cache"` or the substring `"max-age=0"`,
and equals the empty string otherwise. -/
theorem exec_cacheControl_spec (glob : Globals)
    (execute : Template → Option PageDataArg → Except String String)
    (registry : Registry) (req : Request) (name : String) (status : Nat)
    (header : Header) (pd : PageData) (c : Common)
    (hc : (Exec glob execute registry req name status header (some (.good pd))).injected
            = some c) :
    (((hasSubstr req.cacheControl "no-cache" ∨ hasSubstr req.cacheControl "max-age=0") →
       c.CacheControl = "no-cache") ∧
     (¬(hasSubstr req.cacheControl "no-cache" ∨ hasSubstr req.cacheControl "max-age=0") →
       c.CacheControl = "")) := by
  have hcs := exec_injected_inv glob execute registry req name status header pd c hc
  subst hcs
  constructor
  · intro h
    have hb : (goContains req.cacheControl "no-cache" ||
        goContains req.cacheControl "max-age=0") = true := by
      rw [Bool.or_eq_true]
      rcases h with h | h
      · exact Or.inl ((goContains_iff _ _).mpr h)
      · exact Or.inr ((goContains_iff _ _).mpr h)
    simp [specInjectedCommon, hb]
  · intro h
    have h1 : goContains req.cacheControl "no-cache" = false := by
      cases hgc : goContains req.cacheControl "no-cache" with
      | false => rfl
      | true => exact absurd (Or.inl ((goContains_iff _ _).mp hgc)) h
    have h2 : goContains req.cacheControl "max-age=0" = false := by
      cases hgc : goContains req.cacheControl "max-age=0" with
      | false => rfl
      | true => exact absurd (Or.inr ((goContains_iff _ _).mp hgc)) h
    simp [specInjectedCommon, h1, h2]

/-- C5 witness: the request header `Cache-Control: max-age=0, private`
yields the derived value `"no-cache"`. -/
theorem exec_cacheControl_spec_case :
    (((hasSubstr wRequestCC.cacheControl "no-cache" ∨
         hasSubstr wRequestCC.cacheControl "max-age=0") →
       (specInjectedCommon wGlob wRequestCC "t" wPageData).CacheControl = "no-cache") ∧
     (¬(hasSubstr wRequestCC.cacheControl "no-cache" ∨
          hasSubstr wRequestCC.cacheControl "max-age=0") →
       (specInjectedCommon wGlob wRequestCC "t" wPageData).CacheControl = "")) :=
  exec_cacheControl_spec wGlob wExecute wRegistry wRequestCC "t" 200 [] wPageData
    (specInjectedCommon wGlob wRequestCC "t" wPageData) (by decide)

/-- C6: with non-nil page data, a session read failure other than "no
session" makes `Exec` return exactly that error before any context is
injected, before execution and before anything is flushed; a merely absent
session is not an error and `Exec` proceeds with a nil session. -/
theorem exec_session_errors (glob : Globals)
    (execute : Template → Option PageDataArg → Except String String)
    (registry : Registry) (req : Request) (name : String) (status : Nat)
    (header : Header) (arg : PageDataArg) :
    ((∀ m, req.sessionRead = .failed m →
       (Exec glob execute registry req name status header (some arg)).outcome =
           Outcome.fail (.sessionFail m) ∧
         (Exec glob execute registry req name status header (some arg)).injected = none ∧
         (Exec glob execute registry req name status header (some arg)).executed = false ∧
         (Exec glob execute registry req name status header (some arg)).flushed = none) ∧
     (∀ pd c, req.sessionRead = .noSession → arg = .good pd →
       (Exec glob execute registry req name status header (some arg)).injected = some c →
         c.Session = none)) := by
  constructor
  · intro m hm
    simp [Exec, hm]
  · intro pd c hns harg hc
    subst harg
    have hcs := exec_injected_inv glob execute registry req name status header pd c hc
    subst hcs
    simp [specInjectedCommon, hns, sessionOf]

/-- C6 witness: a failing session store propagates its error with nothing
injected, executed or flushed; an absent session yields a nil session in the
injected context. -/
theorem exec_session_errors_case :
    (((Exec wGlob wExecute wRegistry wRequestFail "t" 200 []
          (some (.good wPageData))).outcome =
        Outcome.fail (.sessionFail "session store down") ∧
      (Exec wGlob wExecute wRegistry wRequestFail "t" 200 []
          (some (.good wPageData))).injected = none ∧
      (Exec wGlob wExecute wRegistry wRequestFail "t" 200 []
          (some (.good wPageData))).executed = false ∧
      (Exec wGlob wExecute wRegistry wRequestFail "t" 200 []
          (some (.good wPageData))).flushed = none) ∧
     (specInjectedCommon wGlob wRequest "t" wPageData).Session = none) :=
  ⟨(exec_session_errors wGlob wExecute wRegistry wRequestFail "t" 200 []
      (.good wPageData)).1 "session store down" (by decide),
   (exec_session_errors wGlob wExecute wRegistry wRequest "t" 200 []
      (.good wPageData)).2 wPageData
      (specInjectedCommon wGlob wRequest "t" wPageData) (by decide) rfl (by decide)⟩

/-- C7: for every declared Template Set, if `Load` completes without a fatal
error (all fragments fetched, parsed, and the root definition present), the
set's compiled unit is registered under the set's first fragment identifier
and `Get` of that name returns a non-absent unit. -/
theorem load_registers_first_fragment (fetch : String → Except String String)
    (parse : String → Except String (List (String × String)))
    (reg : Registry) (setv : List String)
    (hok : (Load fetch parse reg).2 = none)
    (hmem : setv ∈ repoSets ∨ setv ∈ commonSets ∨ setv ∈ standaloneSets)
    (hne : setv ≠ []) :
    Get setv.headI (Load fetch parse reg).1 ≠ none := by
  rcases h1 : repoTemplates fetch parse reg with ⟨r1, o1⟩
  cases o1 with
  | some f => simp [Load, h1] at hok
  | none =>
    rcases h2 : commonTemplates fetch parse r1 with ⟨r2, o2⟩
    cases o2 with
    | some f => simp [Load, h1, h2] at hok
    | none =>
      have hload : Load fetch parse reg = standaloneTemplates fetch parse r2 := by
        simp [Load, h1, h2]
      rw [hload]
      unfold repoTemplates at h1
      unfold commonTemplates at h2
      unfold standaloneTemplates
      rcases hmem with hm | hm | hm
      · have hr1 : Get setv.headI r1 ≠ none := by
          have h := parse_registers fetch parse repoSets repoLayout reg setv hne hm
            (by rw [h1])
          rwa [h1] at h
        have hr2 : Get setv.headI r2 ≠ none := by
          have h := parse_get_mono fetch parse commonSets commonLayout r1
            setv.headI hr1
          rwa [h2] at h
        exact parse_get_mono fetch parse standaloneSets standaloneLayout r2
          setv.headI hr2
      · have hr2 : Get setv.headI r2 ≠ none := by
          have h := parse_registers fetch parse commonSets commonLayout r1 setv hne hm
            (by rw [h2])
          rwa [h2] at h
        exact parse_get_mono fetch parse standaloneSets standaloneLayout r2
          setv.headI hr2
      · rw [hload] at hok
        unfold standaloneTemplates at hok
        exact parse_registers fetch parse standaloneSets standaloneLayout r2 setv
          hne hm hok

/-- C7 witness: with an asset source and parser that always succeed and
define `ROOT`, `Load` registers `repo/main.html`. -/
theorem load_registers_first_fragment_case :
    Get (List.headI ["repo/main.html", "repo/readme.inc.html", "repo/tree.inc.html",
        "repo/tree/dir.inc.html", "repo/commit.inc.html"])
      (Load wFetch wParse emptyRegistry).1 ≠ none :=
  load_registers_first_fragment wFetch wParse emptyRegistry
    ["repo/main.html", "repo/readme.inc.html", "repo/tree.inc.html",
     "repo/tree/dir.inc.html", "repo/commit.inc.html"]
    (by decide) (Or.inl (by decide)) (by decide)

/-- C8: a fetch failure, a parse error, or a missing root definition while
compiling a set is fatal — the whole `parseHTMLTemplates` run records a
fatal error — and no unit for that set is ever registered (assuming its
registry key was free and not claimed by an earlier set). -/
theorem compile_failure_fatal_unregistered (fetch : String → Except String String)
    (parse : String → Except String (List (String × String)))
    (layout : List String) (pre post : List (List String)) (setv : List String)
    (reg : Registry) (f : Fatal)
    (hfail : compileSet fetch parse layout setv = .error f)
    (hpre : ∀ p ∈ pre, p ≠ [] ∧ p.headI ≠ setv.headI)
    (hreg : Get setv.headI reg = none) :
    (parseHTMLTemplates fetch parse (pre ++ setv :: post) layout reg).2.isSome = true ∧
    Get setv.headI (parseHTMLTemplates fetch parse (pre ++ setv :: post) layout reg).1
      = none := by
  revert hpre hreg
  induction pre generalizing reg with
  | nil =>
    intro _ hreg
    simp only [List.nil_append]
    simp [parseHTMLTemplates, hfail, hreg]
  | cons p ps ih =>
    intro hpre hreg
    have hp := hpre p (List.mem_cons_self p ps)
    simp only [List.cons_append]
    cases hc : compileSet fetch parse layout p with
    | error f' => simp [parseHTMLTemplates, hc, hreg]
    | ok kt =>
      simp only [parseHTMLTemplates, hc]
      have hkey : kt.1 = p.headI := compile_ok_key fetch parse layout p kt hc hp.1
      have hne' : setv.headI ≠ kt.1 := by
        rw [hkey]
        exact fun hEq => hp.2 hEq.symm
      have hreg' : Get setv.headI (Add kt.1 kt.2 reg) = none := by
        rw [get_add_ne _ _ _ _ hne']
        exact hreg
      exact ih _ (fun q hq => hpre q (List.mem_cons_of_mem p hq)) hreg'

/-- C8 witness: a failing asset source aborts compilation of a one-set list
and leaves the set's key unregistered. -/
theorem compile_failure_fatal_unregistered_case :
    (parseHTMLTemplates wFetchFail wParse [["a.html"]] ["l.html"] emptyRegistry).2.isSome
      = true ∧
    Get (List.headI ["a.html"])
      (parseHTMLTemplates wFetchFail wParse [["a.html"]] ["l.html"] emptyRegistry).1
      = none :=
  compile_failure_fatal_unregistered wFetchFail wParse ["l.html"] [] [] ["a.html"]
    emptyRegistry (Fatal.fetchErr "a.html" "missing asset") rfl
    (by simp) rfl

/-- C9 counterexample: a call with ill-shaped page data and a failing
session store returns the session error — it does not panic — refuting the
claim that every call with ill-shaped non-nil page data panics rather than
returning an error. -/
theorem exec_badShape_session_cex :
    (Exec wGlob wExecute wRegistry wRequestFail "t" 200 []
        (some PageDataArg.badShape)).outcome =
      Outcome.fail (.sessionFail "session store down") ∧
    isPanicked (Exec wGlob wExecute wRegistry wRequestFail "t" 200 []
        (some PageDataArg.badShape)).outcome = false := by
  decide

/-- C9 (amended): for every call to `Exec` with non-nil page data that is
not a pointer to a struct exposing a `Common` field of the Common Context
shape, provided the session read does not fail (that error would be returned
first), `Exec` panics rather than returning an error, and nothing is
flushed. -/
theorem exec_badShape_panics (glob : Globals)
    (execute : Template → Option PageDataArg → Except String String)
    (registry : Registry) (req : Request) (name : String) (status : Nat)
    (header : Header) (hs : sessionReadFailed req.sessionRead = false) :
    isPanicked (Exec glob execute registry req name status header
        (some PageDataArg.badShape)).outcome = true ∧
    (Exec glob execute registry req name status header
        (some PageDataArg.badShape)).flushed = none := by
  rcases hsr : req.sessionRead with s | _ | m
  · simp [Exec, hsr, isPanicked]
  · simp [Exec, hsr, isPanicked]
  · rw [hsr] at hs
    simp [sessionReadFailed] at hs

/-- C9 witness: the amended statement at a concrete call with an absent
session. -/
theorem exec_badShape_panics_case :
    isPanicked (Exec wGlob wExecute wRegistry wRequest "t" 200 []
        (some PageDataArg.badShape)).outcome = true ∧
    (Exec wGlob wExecute wRegistry wRequest "t" 200 []
        (some PageDataArg.badShape)).flushed = none :=
  exec_badShape_panics wGlob wExecute wRegistry wRequest "t" 200 [] (by decide)

/-- C10 counterexample: a call whose page data has a present-but-nil `Err`
field but whose session store fails returns the session error — it does not
panic — refuting the claim that every such call panics. -/
theorem exec_nilErr_session_cex :
    (Exec wGlob wExecute wRegistry wRequestFail "t" 200 []
        (some (.good wPageDataNilErr))).outcome =
      Outcome.fail (.sessionFail "session store down") ∧
    isPanicked (Exec wGlob wExecute wRegistry wRequestFail "t" 200 []
        (some (.good wPageDataNilErr))).outcome = false := by
  decide

/-- C10 (amended): for every call to `Exec` with well-formed page data whose
`Err` field is present but holds a nil error value, provided the session
read does not fail (that error would be returned first), `Exec` panics while
handling the `Err` field for the analytics event message — a present-but-nil
`Err` is not treated like an absent one — with no context injected and
nothing flushed. -/
theorem exec_nilErr_panics (glob : Globals)
    (execute : Template → Option PageDataArg → Except String String)
    (registry : Registry) (req : Request) (name : String) (status : Nat)
    (header : Header) (pd : PageData)
    (hs : sessionReadFailed req.sessionRead = false)
    (he : pd.err = some none) :
    (Exec glob execute registry req name status header (some (.good pd))).outcome =
      Outcome.panicked "interface conversion: interface is nil, not error" ∧
    (Exec glob execute registry req name status header (some (.good pd))).injected
      = none ∧
    (Exec glob execute registry req name status header (some (.good pd))).flushed
      = none := by
  rcases hsr : req.sessionRead with s | _ | m
  · simp [Exec, hsr, he]
  · simp [Exec, hsr, he]
  · rw [hsr] at hs
    simp [sessionReadFailed] at hs

/-- C10 witness: the amended statement at a concrete call with an absent
session. -/
theorem exec_nilErr_panics_case :
    (Exec wGlob wExecute wRegistry wRequest "t" 200 []
        (some (.good wPageDataNilErr))).outcome =
      Outcome.panicked "interface conversion: interface is nil, not error" ∧
    (Exec wGlob wExecute wRegistry wRequest "t" 200 []
        (some (.good wPageDataNilErr))).injected = none ∧
    (Exec wGlob wExecute wRegistry wRequest "t" 200 []
        (some (.good wPageDataNilErr))).flushed = none :=
  exec_nilErr_panics wGlob wExecute wRegistry wRequest "t" 200 [] wPageDataNilErr
    (by decide) (by decide)

end Tmpl
